import Mathlib

/-!
Shallow embedding of `census_data_downloader` (files `base.py` and
`tables/mobility.py`): the year-resolution and validation logic of
`BaseDownloader.__init__`, the API-key resolution, the directory-creation
block, the `download_everything` dispatch loop, the `censusreporter_url`
property, and the mobility table configurations with their inherited
field crosswalks.  Python exceptions are modelled with `Except PyError`;
the filesystem is a list of existing directory paths.
-/

namespace CensusDataDownloader

/-- Python exceptions that the modelled code can raise. -/
inductive PyError where
  | notImplementedError (msg : String)
  | attributeError (attr : String)
  | fileExistsError (path : String)
deriving DecidableEq, Repr

/-- `BaseDownloader.YEAR_LIST`: the supported years, descending. -/
def YEAR_LIST : List Int :=
  [2017, 2016, 2015, 2014, 2013, 2012, 2011, 2010, 2009]

/-- `BaseDownloader.GEO_LIST`: all available geographies, in declared order. -/
def GEO_LIST : List String :=
  ["nationwide",
   "states",
   "congressional_districts",
   "counties",
   "places",
   "urban_areas",
   "msas",
   "csas",
   "pumas",
   "aiannh_homelands",
   "zctas",
   "state_legislative_upper_districts",
   "state_legislative_lower_districts",
   "tracts"]

/-- The Python runtime value passed as the `years` argument of
`BaseDownloader.__init__`: a string, an int, a list of ints, `None`,
or a tuple (a type handled by none of the branches). -/
inductive YearsArg where
  | str (s : String)
  | int (n : Int)
  | list (ns : List Int)
  | none
  | tuple (ns : List Int)
deriving DecidableEq, Repr

/-- The `if/elif` chain of `base.py` lines 69-79 assigning
`self.years_to_download`.  Returns `Option.none` when no branch matches,
in which case the attribute is never assigned. -/
def resolveYears : YearsArg → Option (List Int)
  | .str s => if s = "all" then some YEAR_LIST else Option.none
  | .int n => some [n]
  | .list ns => some ns
  | .none => some [YEAR_LIST.foldl max (-2147483648)]
  | .tuple _ => Option.none

/-- The error message of `base.py` lines 84-85, built from
`YEAR_LIST[-1]` and `YEAR_LIST[0]`. -/
def yearRangeErrorMsg : String :=
  "Data only available for the years " ++
    toString (YEAR_LIST.getLast (by decide)) ++ "-" ++
    toString (YEAR_LIST.head (by decide)) ++ "."

/-- The validation loop of `base.py` lines 82-86: raise
`NotImplementedError` at the first year outside `YEAR_LIST`. -/
def validateYears : List Int → Except PyError Unit
  | [] => .ok ()
  | y :: rest =>
    if y ∈ YEAR_LIST then validateYears rest
    else .error (.notImplementedError yearRangeErrorMsg)

/-- `os.getenv("CENSUS_API_KEY", api_key)`: the environment variable's
value when the variable is present (even if empty), otherwise the
default `api_key`. -/
def osGetenv (envValue : Option String) (default : Option String) :
    Option String :=
  match envValue with
  | some v => some v
  | Option.none => default

/-- Python truthiness of the resolved key: `None` and `""` are falsy. -/
def keyFalsy : Option String → Bool
  | Option.none => true
  | some s => s = ""

/-- The error of `base.py` line 60. -/
def apiKeyRequiredError : PyError :=
  .notImplementedError "Census API key required. Pass it as the first argument."

/-- The filesystem: the set of directory paths that exist, as a list. -/
abbrev FS := List String

/-- `pathlib.Path.mkdir()`: raises `FileExistsError` when the path
already exists, otherwise creates it. -/
def mkdirFS (fs : FS) (p : String) : Except PyError FS :=
  if p ∈ fs then .error (.fileExistsError p) else .ok (fs ++ [p])

/-- One `if not path.exists(): path.mkdir()` step of `base.py`
lines 97-102. -/
def ensureDir (fs : FS) (p : String) : Except PyError FS :=
  if p ∈ fs then .ok fs else mkdirFS fs p

/-- The directory-creation block of `base.py` lines 96-102. -/
def makeDirs (fs : FS) (dd raw proc : String) : Except PyError FS :=
  match ensureDir fs dd with
  | .error e => .error e
  | .ok fs1 =>
    match ensureDir fs1 raw with
    | .error e => .error e
    | .ok fs2 => ensureDir fs2 proc

/-- `BaseDownloader.THIS_DIR`: the (fixed) install location. -/
def THIS_DIR : String := "/install/census_data_downloader"

/-- `base.py` lines 89-92: the caller's `data_dir` when given, otherwise
the fixed `data` subdirectory of the install location. -/
def resolveDataDir : Option String → String
  | some d => d
  | Option.none => THIS_DIR ++ "/data"

/-- The state of a constructed `BaseDownloader`. -/
structure BaseDownloader where
  CENSUS_API_KEY : String
  source : String
  force : Bool
  years_to_download : List Int
  data_dir : String
  raw_data_dir : String
  processed_data_dir : String
deriving DecidableEq, Repr

/-- `BaseDownloader.__init__` (`base.py` lines 46-102), step by step in
source order: resolve and check the API key, resolve `years`
(an unmatched form leaves `years_to_download` unassigned, so the
validation loop raises `AttributeError`), validate the years, derive the
three directories and create each if absent.  Returns the constructed
object together with the filesystem after construction. -/
def BaseDownloader.init (envCensusApiKey : Option String)
    (api_key : Option String) (source : String) (years : YearsArg)
    (data_dir : Option String) (force : Bool) (fs : FS) :
    Except PyError (BaseDownloader × FS) :=
  if keyFalsy (osGetenv envCensusApiKey api_key) then .error apiKeyRequiredError
  else
    match resolveYears years with
    | Option.none => .error (.attributeError "years_to_download")
    | some ys =>
      match validateYears ys with
      | .error e => .error e
      | .ok _ =>
        match makeDirs fs (resolveDataDir data_dir)
            (resolveDataDir data_dir ++ "/raw")
            (resolveDataDir data_dir ++ "/processed") with
        | .error e => .error e
        | .ok fs3 =>
          .ok ({ CENSUS_API_KEY := (osGetenv envCensusApiKey api_key).getD ""
                 source := source
                 force := force
                 years_to_download := ys
                 data_dir := resolveDataDir data_dir
                 raw_data_dir := resolveDataDir data_dir ++ "/raw"
                 processed_data_dir := resolveDataDir data_dir ++ "/processed" },
                fs3)

/-- The geographies for which `base.py` defines a `download_{geo}`
method (lines 111-207), in source definition order.  Each is decorated
with `decorators.downloader`, hence callable. -/
def implementedGeoMethods : List String :=
  ["nationwide",
   "states",
   "congressional_districts",
   "counties",
   "places",
   "tracts",
   "state_legislative_upper_districts",
   "state_legislative_lower_districts",
   "urban_areas",
   "msas",
   "csas",
   "pumas",
   "aiannh_homelands",
   "zctas"]

/-- `BaseDownloader.download_everything` (`base.py` lines 209-220):
iterate the geography list in order; for each entry look up
`download_{geo}` among the implemented methods; raise
`NotImplementedError` naming the geography when the lookup fails,
otherwise invoke the routine.  Returns the list of geographies whose
routines were invoked, in invocation order. -/
def downloadEverything (geoList : List String) (impl : List String) :
    Except PyError (List String) :=
  match geoList with
  | [] => .ok []
  | geo :: rest =>
    if geo ∈ impl then
      match downloadEverything rest impl with
      | .error e => .error e
      | .ok invoked => .ok (geo :: invoked)
    else .error (.notImplementedError ("Invalid geography type: " ++ geo))

/-- A table configuration: the class attributes a registered table
config class resolves (`tables/mobility.py`). -/
structure TableConfig where
  PROCESSED_TABLE_NAME : String
  UNIVERSE : String
  RAW_TABLE_NAME : String
  RAW_FIELD_CROSSWALK : List (String × String)
deriving DecidableEq, Repr

/-- `MobilityDownloader` (`mobility.py` lines 8-20). -/
def MobilityDownloader : TableConfig :=
  { PROCESSED_TABLE_NAME := "mobility"
    UNIVERSE := "population 1 year and over"
    RAW_TABLE_NAME := "B07003"
    RAW_FIELD_CROSSWALK :=
      [("001E", "universe"),
       ("004E", "same_house"),
       ("007E", "moved_within_county"),
       ("010E", "moved_from_different_county_in_same_state"),
       ("013E", "moved_from_different_state"),
       ("016E", "moved_from_abroad")] }

/-- `MobilityBySexDownloader` (`mobility.py` lines 23-45): extends
`MobilityDownloader`, overriding the processed name and the crosswalk. -/
def MobilityBySexDownloader : TableConfig :=
  { MobilityDownloader with
    PROCESSED_TABLE_NAME := "mobilitybysex"
    RAW_FIELD_CROSSWALK :=
      [("001E", "universe"),
       ("002E", "male_total"),
       ("003E", "female_total"),
       ("004E", "total_same_house"),
       ("005E", "male_same_house"),
       ("006E", "female_same_house"),
       ("007E", "total_moved_within_county"),
       ("008E", "male_moved_within_county"),
       ("009E", "female_moved_within_county"),
       ("010E", "total_moved_from_different_county_in_same_state"),
       ("011E", "male_moved_from_different_county_in_same_state"),
       ("012E", "female_moved_from_different_county_in_same_state"),
       ("013E", "total_moved_from_different_state"),
       ("014E", "male_moved_from_different_state"),
       ("015E", "female_moved_from_different_state"),
       ("016E", "total_moved_from_abroad"),
       ("017E", "male_moved_from_abroad"),
       ("018E", "female_moved_from_abroad")] }

/-- `MobilityWhiteDownloader` (`mobility.py` lines 48-60). -/
def MobilityWhiteDownloader : TableConfig :=
  { PROCESSED_TABLE_NAME := "mobilitywhite"
    UNIVERSE := "population 1 year and over"
    RAW_TABLE_NAME := "B07004H"
    RAW_FIELD_CROSSWALK :=
      [("001E", "universe"),
       ("002E", "same_house"),
       ("003E", "moved_within_county"),
       ("004E", "moved_from_different_county_in_same_state"),
       ("005E", "moved_from_different_state"),
       ("006E", "moved_from_abroad")] }

/-- `MobilityBlackDownloader` (`mobility.py` lines 63-66): subclass of
`MobilityWhiteDownloader` overriding only the processed and raw table
names; every other attribute is inherited. -/
def MobilityBlackDownloader : TableConfig :=
  { MobilityWhiteDownloader with
    PROCESSED_TABLE_NAME := "mobilityblack"
    RAW_TABLE_NAME := "B07004B" }

/-- `MobilityAsianDownloader` (`mobility.py` lines 69-72). -/
def MobilityAsianDownloader : TableConfig :=
  { MobilityWhiteDownloader with
    PROCESSED_TABLE_NAME := "mobilityasian"
    RAW_TABLE_NAME := "B07004D" }

/-- `MobilityLatinoDownloader` (`mobility.py` lines 75-78). -/
def MobilityLatinoDownloader : TableConfig :=
  { MobilityWhiteDownloader with
    PROCESSED_TABLE_NAME := "mobilitylatino"
    RAW_TABLE_NAME := "B07004I" }

/-- `BaseDownloader.censusreporter_url` (`base.py` lines 104-109):
a pure string template over `RAW_TABLE_NAME`. -/
def censusreporter_url (c : TableConfig) : String :=
  "https://censusreporter.org/tables/" ++ c.RAW_TABLE_NAME ++ "/"

/-!  Helper lemmas shared by the claim theorems.  -/

theorem validateYears_ok_iff (ys : List Int) :
    validateYears ys = .ok () ↔ ∀ y ∈ ys, y ∈ YEAR_LIST := by
  induction ys with
  | nil => simp [validateYears]
  | cons y rest ih =>
    by_cases hy : y ∈ YEAR_LIST
    · simp [validateYears, hy, ih]
    · simp [validateYears, hy]

theorem validateYears_error_of_bad (ys : List Int)
    (h : ∃ y ∈ ys, y ∉ YEAR_LIST) :
    validateYears ys = .error (.notImplementedError yearRangeErrorMsg) := by
  induction ys with
  | nil => simp at h
  | cons y rest ih =>
    by_cases hy : y ∈ YEAR_LIST
    · simp only [validateYears, if_pos hy]
      apply ih
      rcases h with ⟨z, hz, hbad⟩
      rcases List.mem_cons.mp hz with rfl | hz
      · exact absurd hy hbad
      · exact ⟨z, hz, hbad⟩
    · simp [validateYears, hy]

theorem yearRangeErrorMsg_eq :
    yearRangeErrorMsg = "Data only available for the years 2009-2017." := by
  rfl

theorem downloadEverything_ok_of_all (geos impl : List String)
    (h : ∀ g ∈ geos, g ∈ impl) :
    downloadEverything geos impl = .ok geos := by
  induction geos with
  | nil => rfl
  | cons g rest ih =>
    have hg : g ∈ impl := h g (List.mem_cons_self g rest)
    have hrest : downloadEverything rest impl = .ok rest :=
      ih (fun x hx => h x (List.mem_cons_of_mem g hx))
    simp [downloadEverything, hg, hrest]

theorem downloadEverything_mem_of_ok (geos impl : List String)
    (l : List String) (h : downloadEverything geos impl = .ok l) :
    ∀ g ∈ geos, g ∈ impl := by
  induction geos generalizing l with
  | nil => simp
  | cons g rest ih =>
    intro x hx
    by_cases hg : g ∈ impl
    · simp only [downloadEverything, if_pos hg] at h
      rcases List.mem_cons.mp hx with rfl | hx
      · exact hg
      · cases hrest : downloadEverything rest impl with
        | error e => rw [hrest] at h; exact absurd h (by simp)
        | ok l0 => exact ih l0 hrest x hx
    · simp [downloadEverything, hg] at h

theorem downloadEverything_error_first_missing (geos impl : List String)
    (g : String)
    (h : geos.find? (fun x => decide (x ∉ impl)) = some g) :
    downloadEverything geos impl =
      .error (.notImplementedError ("Invalid geography type: " ++ g)) := by
  induction geos with
  | nil => simp [List.find?] at h
  | cons g0 rest ih =>
    by_cases hg : g0 ∈ impl
    · rw [List.find?_cons_of_neg] at h
      · have hrest := ih h
        simp [downloadEverything, hg, hrest]
      · simp [hg]
    · rw [List.find?_cons_of_pos] at h
      · simp only [Option.some.injEq] at h
        subst h
        simp [downloadEverything, hg]
      · simp [hg]

theorem ensureDir_eq (fs : FS) (p : String) :
    ensureDir fs p = .ok (if p ∈ fs then fs else fs ++ [p]) := by
  by_cases hp : p ∈ fs
  · simp [ensureDir, hp]
  · simp [ensureDir, mkdirFS, hp]

theorem mem_dirStep_self (fs : FS) (p : String) :
    p ∈ (if p ∈ fs then fs else fs ++ [p]) := by
  by_cases hp : p ∈ fs
  · simp [hp]
  · simp [hp]

theorem mem_dirStep_mono (fs : FS) (p q : String) (h : q ∈ fs) :
    q ∈ (if p ∈ fs then fs else fs ++ [p]) := by
  by_cases hp : p ∈ fs
  · simp [hp, h]
  · simp [hp, h]

theorem ensureDir_of_mem (fs : FS) (p : String) (h : p ∈ fs) :
    ensureDir fs p = .ok fs := by
  simp [ensureDir, h]

theorem makeDirs_eq (fs : FS) (dd raw proc : String) :
    makeDirs fs dd raw proc =
      .ok (let f1 := if dd ∈ fs then fs else fs ++ [dd]
           let f2 := if raw ∈ f1 then f1 else f1 ++ [raw]
           if proc ∈ f2 then f2 else f2 ++ [proc]) := by
  simp [makeDirs, ensureDir_eq]

theorem makeDirs_mem (fs : FS) (dd raw proc : String) (fs3 : FS)
    (h : makeDirs fs dd raw proc = .ok fs3) :
    dd ∈ fs3 ∧ raw ∈ fs3 ∧ proc ∈ fs3 := by
  rw [makeDirs_eq] at h
  simp only [Except.ok.injEq] at h
  subst h
  refine ⟨?_, ?_, ?_⟩
  · exact mem_dirStep_mono _ _ _ (mem_dirStep_mono _ _ _ (mem_dirStep_self fs dd))
  · exact mem_dirStep_mono _ _ _ (mem_dirStep_self _ raw)
  · exact mem_dirStep_self _ proc

theorem makeDirs_of_mem (fs : FS) (dd raw proc : String)
    (h1 : dd ∈ fs) (h2 : raw ∈ fs) (h3 : proc ∈ fs) :
    makeDirs fs dd raw proc = .ok fs := by
  simp [makeDirs, ensureDir_of_mem, h1, h2, h3]

theorem init_ok_elim (env arg : Option String) (src : String)
    (years : YearsArg) (dd : Option String) (force : Bool) (fs : FS)
    (d : BaseDownloader) (fs1 : FS)
    (h : BaseDownloader.init env arg src years dd force fs = .ok (d, fs1)) :
    keyFalsy (osGetenv env arg) = false ∧
    resolveYears years = some d.years_to_download ∧
    validateYears d.years_to_download = .ok () ∧
    makeDirs fs (resolveDataDir dd) (resolveDataDir dd ++ "/raw")
      (resolveDataDir dd ++ "/processed") = .ok fs1 ∧
    d = { CENSUS_API_KEY := (osGetenv env arg).getD ""
          source := src
          force := force
          years_to_download := d.years_to_download
          data_dir := resolveDataDir dd
          raw_data_dir := resolveDataDir dd ++ "/raw"
          processed_data_dir := resolveDataDir dd ++ "/processed" } := by
  unfold BaseDownloader.init at h
  split at h
  · exact absurd h (by simp)
  · rename_i hk
    split at h
    · exact absurd h (by simp)
    · rename_i ys hy
      split at h
      · exact absurd h (by simp)
      · rename_i u hv
        cases u
        split at h
        · exact absurd h (by simp)
        · rename_i fs3 hmk
          simp only [Except.ok.injEq, Prod.mk.injEq] at h
          obtain ⟨hd, hfs⟩ := h
          subst hd
          subst hfs
          exact ⟨by simpa using hk, hy, hv, hmk, rfl⟩

/-! Claim theorems. -/

/-- C1: every accepted form of the `years` argument resolves as documented:
the string "all" yields all nine supported years in descending order 2017
down to 2009, a single int `y` yields `[y]`, a list yields exactly those
years, and `None` yields only the most recent supported year 2017; a
successfully constructed `BaseDownloader` carries exactly the resolved
years as `years_to_download`. -/
theorem years_to_download_resolution :
    (resolveYears (YearsArg.str "all") = some YEAR_LIST ∧
      YEAR_LIST = [2017, 2016, 2015, 2014, 2013, 2012, 2011, 2010, 2009]) ∧
    (∀ y : Int, resolveYears (YearsArg.int y) = some [y]) ∧
    (∀ ns : List Int, resolveYears (YearsArg.list ns) = some ns) ∧
    resolveYears YearsArg.none = some [2017] ∧
    (∀ (env arg : Option String) (src : String) (years : YearsArg)
        (dd : Option String) (force : Bool) (fs : FS) (d : BaseDownloader)
        (fs1 : FS),
      BaseDownloader.init env arg src years dd force fs = .ok (d, fs1) →
      some d.years_to_download = resolveYears years) := by
  refine ⟨⟨rfl, rfl⟩, fun y => rfl, fun ns => rfl, by decide, ?_⟩
  intro env arg src years dd force fs d fs1 h
  exact (init_ok_elim env arg src years dd force fs d fs1 h).2.1.symm

/-- C1 witness: the theorem's constructor clause at a concrete input. -/
theorem years_to_download_resolution_witness :
    some ({ CENSUS_API_KEY := "KEY", source := "acs5", force := false,
            years_to_download := [2015], data_dir := "/data",
            raw_data_dir := "/data/raw",
            processed_data_dir := "/data/processed" } :
          BaseDownloader).years_to_download =
      resolveYears (YearsArg.int 2015) :=
  years_to_download_resolution.2.2.2.2 Option.none (some "KEY") "acs5"
    (YearsArg.int 2015) (some "/data") false []
    { CENSUS_API_KEY := "KEY", source := "acs5", force := false,
      years_to_download := [2015], data_dir := "/data",
      raw_data_dir := "/data/raw", processed_data_dir := "/data/processed" }
    ["/data", "/data/raw", "/data/processed"] (by rfl)

/-- C2: `download_everything` iterates `GEO_LIST` in declared order; when
every geography has an implemented routine it invokes each exactly once in
that order, any geography lacking a routine prevents a silent success, and
the first geography lacking a routine triggers a `NotImplementedError`
naming that geography. -/
theorem download_everything_checks_geos (impl : List String) :
    ((∀ g ∈ GEO_LIST, g ∈ impl) →
      downloadEverything GEO_LIST impl = .ok GEO_LIST) ∧
    (∀ g ∈ GEO_LIST, g ∉ impl →
      ∀ l : List String, downloadEverything GEO_LIST impl ≠ .ok l) ∧
    (∀ g : String, GEO_LIST.find? (fun x => decide (x ∉ impl)) = some g →
      g ∈ GEO_LIST ∧ g ∉ impl ∧
      downloadEverything GEO_LIST impl =
        .error (.notImplementedError ("Invalid geography type: " ++ g))) := by
  refine ⟨downloadEverything_ok_of_all GEO_LIST impl, ?_, ?_⟩
  · intro g hg hbad l hok
    exact hbad (downloadEverything_mem_of_ok GEO_LIST impl l hok g hg)
  · intro g hfind
    have hmem := List.mem_of_find?_eq_some hfind
    have hsat := List.find?_some hfind
    simp only [decide_eq_true_eq] at hsat
    exact ⟨hmem, hsat,
      downloadEverything_error_first_missing GEO_LIST impl g hfind⟩

/-- C2 witness: with all routines implemented the whole list is invoked in
order; with only a `states` routine the run fails naming `nationwide`. -/
theorem download_everything_checks_geos_witness :
    downloadEverything GEO_LIST GEO_LIST = .ok GEO_LIST ∧
    ("nationwide" ∈ GEO_LIST ∧ "nationwide" ∉ (["states"] : List String) ∧
      downloadEverything GEO_LIST ["states"] =
        .error (.notImplementedError
          ("Invalid geography type: " ++ "nationwide"))) :=
  ⟨(download_everything_checks_geos GEO_LIST).1 (fun _ hg => hg),
   (download_everything_checks_geos ["states"]).2.2 "nationwide" (by decide)⟩

/-- C3: the year validation succeeds exactly when every resolved year lies
in the supported set, any year outside it raises `NotImplementedError`
naming the range 2009-2017, and a construction whose resolved list holds a
bad year fails with that error. -/
theorem year_out_of_range_fails (ys : List Int) :
    (validateYears ys = .ok () ↔ ∀ y ∈ ys, y ∈ YEAR_LIST) ∧
    ((∃ y ∈ ys, y ∉ YEAR_LIST) →
      validateYears ys = .error (.notImplementedError
        "Data only available for the years 2009-2017.")) ∧
    (∀ (env arg : Option String) (src : String) (dd : Option String)
        (force : Bool) (fs : FS),
      keyFalsy (osGetenv env arg) = false →
      (∃ y ∈ ys, y ∉ YEAR_LIST) →
      BaseDownloader.init env arg src (YearsArg.list ys) dd force fs =
        .error (.notImplementedError
          "Data only available for the years 2009-2017.")) := by
  refine ⟨validateYears_ok_iff ys, ?_, ?_⟩
  · intro hbad
    rw [validateYears_error_of_bad ys hbad, yearRangeErrorMsg_eq]
  · intro env arg src dd force fs hk hbad
    unfold BaseDownloader.init
    rw [if_neg (by simp [hk])]
    simp only [resolveYears]
    rw [validateYears_error_of_bad ys hbad, yearRangeErrorMsg_eq]

/-- C3 witness: the year 2008 is rejected with the range-naming error. -/
theorem year_out_of_range_fails_witness :
    validateYears [2008] = .error (.notImplementedError
      "Data only available for the years 2009-2017.") ∧
    BaseDownloader.init Option.none (some "KEY") "acs5" (YearsArg.list [2008])
        (some "/data") false [] =
      .error (.notImplementedError
        "Data only available for the years 2009-2017.") :=
  ⟨(year_out_of_range_fails [2008]).2.1 ⟨2008, by decide, by decide⟩,
   (year_out_of_range_fails [2008]).2.2 Option.none (some "KEY") "acs5"
     (some "/data") false [] (by decide) ⟨2008, by decide, by decide⟩⟩

/-- C5: with no explicit `api_key` and the `CENSUS_API_KEY` environment
variable unset, or set to the empty string, construction raises the
key-required `NotImplementedError` regardless of every other argument and
of the filesystem, i.e. before any other work. -/
theorem missing_api_key_fails (src : String) (years : YearsArg)
    (dd : Option String) (force : Bool) (fs : FS) :
    BaseDownloader.init Option.none Option.none src years dd force fs =
      .error apiKeyRequiredError ∧
    BaseDownloader.init (some "") Option.none src years dd force fs =
      .error apiKeyRequiredError ∧
    apiKeyRequiredError = .notImplementedError
      "Census API key required. Pass it as the first argument." := by
  exact ⟨rfl, rfl, rfl⟩

/-- C6: the race-specific mobility configs, declared as extensions of
`MobilityWhiteDownloader` overriding only the processed and raw table
names, inherit its 6-entry field crosswalk identically (same keys, same
values, same order). -/
theorem inherited_crosswalks :
    MobilityBlackDownloader.RAW_FIELD_CROSSWALK =
      MobilityWhiteDownloader.RAW_FIELD_CROSSWALK ∧
    MobilityAsianDownloader.RAW_FIELD_CROSSWALK =
      MobilityWhiteDownloader.RAW_FIELD_CROSSWALK ∧
    MobilityLatinoDownloader.RAW_FIELD_CROSSWALK =
      MobilityWhiteDownloader.RAW_FIELD_CROSSWALK ∧
    MobilityWhiteDownloader.RAW_FIELD_CROSSWALK.length = 6 ∧
    MobilityWhiteDownloader.RAW_FIELD_CROSSWALK =
      [("001E", "universe"),
       ("002E", "same_house"),
       ("003E", "moved_within_county"),
       ("004E", "moved_from_different_county_in_same_state"),
       ("005E", "moved_from_different_state"),
       ("006E", "moved_from_abroad")] ∧
    MobilityBlackDownloader.RAW_TABLE_NAME = "B07004B" ∧
    MobilityBlackDownloader.PROCESSED_TABLE_NAME = "mobilityblack" ∧
    MobilityBlackDownloader.UNIVERSE = MobilityWhiteDownloader.UNIVERSE := by
  exact ⟨rfl, rfl, rfl, rfl, rfl, rfl, rfl, rfl⟩

/-- C4 counterexample: with the environment variable set to "ENV-KEY" and
an explicit api_key argument "ARG-KEY", the constructed downloader's key is
the environment value, not the explicit argument — so the explicit argument
is not the key used, refuting the claim that the environment variable is
only a fallback. -/
theorem api_key_env_overrides_arg :
    BaseDownloader.init (some "ENV-KEY") (some "ARG-KEY") "acs5" YearsArg.none
        (some "/data") false [] =
      .ok ({ CENSUS_API_KEY := "ENV-KEY", source := "acs5", force := false,
             years_to_download := [2017], data_dir := "/data",
             raw_data_dir := "/data/raw",
             processed_data_dir := "/data/processed" },
           ["/data", "/data/raw", "/data/processed"]) ∧
    ("ENV-KEY" : String) ≠ "ARG-KEY" := by
  exact ⟨rfl, by decide⟩

/-- C4 (amended): `os.getenv("CENSUS_API_KEY", api_key)` makes the
environment variable the primary source: whenever it is set its value is
the key used, even if an explicit `api_key` argument was passed, and the
explicit argument is consulted only when the variable is absent. -/
theorem api_key_resolution (env arg : Option String) (src : String)
    (years : YearsArg) (dd : Option String) (force : Bool) (fs : FS)
    (d : BaseDownloader) (fs1 : FS)
    (h : BaseDownloader.init env arg src years dd force fs = .ok (d, fs1)) :
    d.CENSUS_API_KEY = (osGetenv env arg).getD "" ∧
    (∀ v : String, env = some v → d.CENSUS_API_KEY = v) ∧
    (env = Option.none → some d.CENSUS_API_KEY = arg) := by
  obtain ⟨hk, _, _, _, hd⟩ :=
    init_ok_elim env arg src years dd force fs d fs1 h
  refine ⟨by rw [hd], ?_, ?_⟩
  · intro v hv
    subst hv
    rw [hd]
    rfl
  · intro henv
    subst henv
    rw [hd]
    cases arg with
    | none => simp [osGetenv, keyFalsy] at hk
    | some a => rfl

/-- C4 witness: the amended rule at a concrete construction where both the
environment variable and the explicit argument are set. -/
theorem api_key_resolution_witness :
    ({ CENSUS_API_KEY := "ENV2", source := "acs5", force := false,
       years_to_download := [2017], data_dir := "/data",
       raw_data_dir := "/data/raw",
       processed_data_dir := "/data/processed" } :
      BaseDownloader).CENSUS_API_KEY =
      (osGetenv (some "ENV2") (some "ARG2")).getD "" :=
  (api_key_resolution (some "ENV2") (some "ARG2") "acs5" YearsArg.none
    (some "/data") false []
    { CENSUS_API_KEY := "ENV2", source := "acs5", force := false,
      years_to_download := [2017], data_dir := "/data",
      raw_data_dir := "/data/raw", processed_data_dir := "/data/processed" }
    ["/data", "/data/raw", "/data/processed"] (by rfl)).1

/-- C7: any successful construction leaves the data directory and its raw
and processed subdirectories existing, and re-running the construction
against the resulting filesystem succeeds with the same downloader and the
same filesystem — directory creation is idempotent. -/
theorem construction_idempotent (env arg : Option String) (src : String)
    (years : YearsArg) (dd : Option String) (force : Bool) (fs : FS)
    (d : BaseDownloader) (fs1 : FS)
    (h : BaseDownloader.init env arg src years dd force fs = .ok (d, fs1)) :
    d.data_dir ∈ fs1 ∧ d.raw_data_dir ∈ fs1 ∧ d.processed_data_dir ∈ fs1 ∧
    BaseDownloader.init env arg src years dd force fs1 = .ok (d, fs1) := by
  obtain ⟨hk, hy, hv, hmk, hd⟩ :=
    init_ok_elim env arg src years dd force fs d fs1 h
  obtain ⟨m1, m2, m3⟩ := makeDirs_mem _ _ _ _ _ hmk
  refine ⟨by rw [hd]; exact m1, by rw [hd]; exact m2, by rw [hd]; exact m3, ?_⟩
  unfold BaseDownloader.init
  rw [if_neg (by simp [hk])]
  simp only [hy, hv, makeDirs_of_mem fs1 _ _ _ m1 m2 m3]
  rw [hd]

/-- C7 witness: a concrete first construction, and the second construction
against the filesystem it produced. -/
theorem construction_idempotent_witness :
    "/data" ∈ (["/data", "/data/raw", "/data/processed"] : FS) ∧
    "/data/raw" ∈ (["/data", "/data/raw", "/data/processed"] : FS) ∧
    "/data/processed" ∈ (["/data", "/data/raw", "/data/processed"] : FS) ∧
    BaseDownloader.init Option.none (some "KEY") "acs5" YearsArg.none
        (some "/data") false ["/data", "/data/raw", "/data/processed"] =
      .ok ({ CENSUS_API_KEY := "KEY", source := "acs5", force := false,
             years_to_download := [2017], data_dir := "/data",
             raw_data_dir := "/data/raw",
             processed_data_dir := "/data/processed" },
           ["/data", "/data/raw", "/data/processed"]) :=
  construction_idempotent Option.none (some "KEY") "acs5" YearsArg.none
    (some "/data") false []
    { CENSUS_API_KEY := "KEY", source := "acs5", force := false,
      years_to_download := [2017], data_dir := "/data",
      raw_data_dir := "/data/raw", processed_data_dir := "/data/processed" }
    ["/data", "/data/raw", "/data/processed"] (by rfl)

/-- C8: `censusreporter_url` equals the fixed template
"https://censusreporter.org/tables/" ++ raw table id ++ "/" for every
config, and is determined by the raw table id alone: it is a pure function
of the config with no access to, or effect on, any other state. -/
theorem censusreporter_url_spec (c1 c2 : TableConfig) :
    censusreporter_url c1 =
      "https://censusreporter.org/tables/" ++ c1.RAW_TABLE_NAME ++ "/" ∧
    (c1.RAW_TABLE_NAME = c2.RAW_TABLE_NAME →
      censusreporter_url c1 = censusreporter_url c2) := by
  refine ⟨rfl, ?_⟩
  intro h
  unfold censusreporter_url
  rw [h]

/-- C8 witness: the template at `MobilityWhiteDownloader`, and invariance
under a change of every field but the raw table id. -/
theorem censusreporter_url_spec_witness :
    censusreporter_url MobilityWhiteDownloader =
      "https://censusreporter.org/tables/" ++
        MobilityWhiteDownloader.RAW_TABLE_NAME ++ "/" ∧
    censusreporter_url MobilityWhiteDownloader =
      censusreporter_url
        { MobilityWhiteDownloader with PROCESSED_TABLE_NAME := "other" } :=
  ⟨(censusreporter_url_spec MobilityWhiteDownloader
      MobilityWhiteDownloader).1,
   (censusreporter_url_spec MobilityWhiteDownloader
      { MobilityWhiteDownloader with PROCESSED_TABLE_NAME := "other" }).2
     (by rfl)⟩

/-- C9: a `years` argument of an unhandled form — a string other than
"all", or a tuple — matches no branch of the `if/elif` chain, so
`years_to_download` is never assigned and construction fails with an
attribute-lookup error on `years_to_download`, which is not a
`NotImplementedError` naming the input. -/
theorem invalid_years_form_attribute_error (s : String) (ns : List Int)
    (env arg : Option String) (src : String) (dd : Option String)
    (force : Bool) (fs : FS)
    (hs : s ≠ "all") (hk : keyFalsy (osGetenv env arg) = false) :
    BaseDownloader.init env arg src (YearsArg.str s) dd force fs =
      .error (.attributeError "years_to_download") ∧
    BaseDownloader.init env arg src (YearsArg.tuple ns) dd force fs =
      .error (.attributeError "years_to_download") ∧
    (∀ msg : String,
      PyError.attributeError "years_to_download" ≠
        PyError.notImplementedError msg) := by
  refine ⟨?_, ?_, ?_⟩
  · unfold BaseDownloader.init
    rw [if_neg (by simp [hk])]
    simp [resolveYears, hs]
  · unfold BaseDownloader.init
    rw [if_neg (by simp [hk])]
    simp [resolveYears]
  · intro msg hcontra
    exact PyError.noConfusion hcontra

/-- C9 witness: the string "latest" and a tuple, with a valid key. -/
theorem invalid_years_form_attribute_error_witness :
    BaseDownloader.init Option.none (some "KEY") "acs5"
        (YearsArg.str "latest") (some "/data") false [] =
      .error (.attributeError "years_to_download") ∧
    BaseDownloader.init Option.none (some "KEY") "acs5"
        (YearsArg.tuple [2017]) (some "/data") false [] =
      .error (.attributeError "years_to_download") ∧
    (∀ msg : String,
      PyError.attributeError "years_to_download" ≠
        PyError.notImplementedError msg) :=
  invalid_years_form_attribute_error "latest" [2017] Option.none
    (some "KEY") "acs5" (some "/data") false [] (by decide) (by decide)

/-- C10: for `BaseDownloader` itself every one of the 14 identifiers in
`GEO_LIST` has an implemented `download_{geo}` method, so
`download_everything` succeeds, invoking all 14 geography routines, each
once, in the declared `GEO_LIST` order — the missing-routine error branch
is unreachable. -/
theorem geo_list_fully_implemented :
    downloadEverything GEO_LIST implementedGeoMethods = .ok GEO_LIST ∧
    (∀ g ∈ GEO_LIST, g ∈ implementedGeoMethods) ∧
    GEO_LIST.length = 14 ∧ implementedGeoMethods.length = 14 := by
  exact ⟨rfl, by decide, rfl, rfl⟩

end CensusDataDownloader
